import Mathlib

/-!
# Verification of the Pushwoosh API client (`pushwoosh.py`)

Shallow embedding of the single-module Pushwoosh HTTP API client.  JSON
values are modelled by `JValue`; Python dicts become ordered association
lists (insertion order preserved, assignment to an existing key replaces
its value in place).  The network transport is external input: each
operation receives the pair `(resp.status, resp.read())` that the private
`_request` helper would return, mirroring `_, raw_response = self._request(...)`.
`json.loads` is modelled by a recursive-descent parser `json_loads`
(integer numerals only; the responses the client inspects carry integer
status codes).  Exceptions become an explicit error type `PwError`:
`json.JSONDecodeError`, `KeyError`, `TypeError`, `AttributeError` and the
module's own `PushwooshFailure`.
-/

/-- A JSON value, as produced by `json.loads` / consumed by `json.dumps`.
Objects are ordered association lists, as Python dicts are. -/
inductive JValue where
  | null
  | bool (b : Bool)
  | int (n : Int)
  | str (s : String)
  | arr (elems : List JValue)
  | obj (entries : List (String × JValue))

/-- Python `x == n` for an integer literal `n`: true exactly on the equal
integer (the client only ever compares the decoded status against the
integer literals 200 and 103). -/
def JValue.eqInt : JValue → Int → Bool
  | .int m, n => m == n
  | _, _ => false

/-- JSON whitespace. -/
def isJsonWs (c : Char) : Bool :=
  c == ' ' || c == '\t' || c == '\n' || c == '\r'

/-- Drop leading JSON whitespace. -/
def skipWs : List Char → List Char
  | [] => []
  | c :: cs => if isJsonWs c then skipWs cs else c :: cs

/-- Split a leading run of decimal digits off the input. -/
def takeDigits : List Char → List Char × List Char
  | [] => ([], [])
  | c :: cs =>
    if c.isDigit then
      let (ds, rest) := takeDigits cs
      (c :: ds, rest)
    else ([], c :: cs)

/-- Value of a digit string. -/
def digitsToNat : List Char → Nat → Nat
  | [], acc => acc
  | c :: cs, acc => digitsToNat cs (acc * 10 + (c.toNat - 48))

/-- One escape character after a backslash in a JSON string literal,
keyed by code point: quote, backslash, slash, and the control escapes
n, t, r, b, f. -/
def escChar (c : Char) : Option Char :=
  match c.toNat with
  | 34 => some (Char.ofNat 34)
  | 92 => some (Char.ofNat 92)
  | 47 => some (Char.ofNat 47)
  | 110 => some (Char.ofNat 10)
  | 116 => some (Char.ofNat 9)
  | 114 => some (Char.ofNat 13)
  | 98 => some (Char.ofNat 8)
  | 102 => some (Char.ofNat 12)
  | _ => none

/-- Body of a JSON string literal (after the opening quote): the decoded
characters and the input remaining after the closing quote. -/
def parseStrBody : List Char → Option (List Char × List Char)
  | [] => none
  | c :: cs =>
    if c == '"' then some ([], cs)
    else if c == '\\' then
      match cs with
      | [] => none
      | e :: cs2 =>
        match escChar e with
        | none => none
        | some ch =>
          match parseStrBody cs2 with
          | some (s, rest) => some (ch :: s, rest)
          | none => none
    else
      match parseStrBody cs with
      | some (s, rest) => some (c :: s, rest)
      | none => none

/-- Opening brace character. -/
def lbrace : Char := Char.ofNat 123

/-- Closing brace character. -/
def rbrace : Char := Char.ofNat 125

/-- Record a key/value pair in an object under construction: Python dict
semantics, a repeated key overwrites the earlier value in place. -/
def insertEntry : List (String × JValue) → String → JValue → List (String × JValue)
  | [], k, v => [(k, v)]
  | (k2, v2) :: rest, k, v =>
    if k2 == k then (k2, v) :: rest else (k2, v2) :: insertEntry rest k v

mutual

/-- Parse one JSON value; returns it and the remaining input. -/
def parseVal : Nat → List Char → Option (JValue × List Char)
  | 0, _ => none
  | fuel + 1, input =>
    match skipWs input with
    | [] => none
    | c :: cs =>
      if c == '"' then
        match parseStrBody cs with
        | some (s, rest) => some (.str (String.mk s), rest)
        | none => none
      else if c == lbrace then
        match skipWs cs with
        | [] => none
        | c2 :: cs2 =>
          if c2 == rbrace then some (.obj [], cs2)
          else parseMembers fuel (c2 :: cs2) []
      else if c == '[' then
        match skipWs cs with
        | [] => none
        | c2 :: cs2 =>
          if c2 == ']' then some (.arr [], cs2)
          else parseElems fuel (c2 :: cs2) []
      else if c == 't' then
        match cs with
        | 'r' :: 'u' :: 'e' :: rest => some (.bool true, rest)
        | _ => none
      else if c == 'f' then
        match cs with
        | 'a' :: 'l' :: 's' :: 'e' :: rest => some (.bool false, rest)
        | _ => none
      else if c == 'n' then
        match cs with
        | 'u' :: 'l' :: 'l' :: rest => some (.null, rest)
        | _ => none
      else if c == '-' then
        match takeDigits cs with
        | ([], _) => none
        | (ds, rest) => some (.int (-(digitsToNat ds 0 : Int)), rest)
      else if c.isDigit then
        match takeDigits (c :: cs) with
        | (ds, rest) => some (.int (digitsToNat ds 0 : Int), rest)
      else none

/-- Parse the members of a JSON object after the opening brace (at least
one member present), accumulating into a dict. -/
def parseMembers : Nat → List Char → List (String × JValue) →
    Option (JValue × List Char)
  | 0, _, _ => none
  | fuel + 1, input, acc =>
    match skipWs input with
    | [] => none
    | c :: cs =>
      if c == '"' then
        match parseStrBody cs with
        | none => none
        | some (k, r1) =>
          match skipWs r1 with
          | ':' :: r2 =>
            match parseVal fuel r2 with
            | none => none
            | some (v, r3) =>
              let acc2 := insertEntry acc (String.mk k) v
              match skipWs r3 with
              | ',' :: r4 => parseMembers fuel r4 acc2
              | c2 :: r4 => if c2 == rbrace then some (.obj acc2, r4) else none
              | [] => none
          | _ => none
      else none

/-- Parse the elements of a JSON array after the opening bracket (at least
one element present). -/
def parseElems : Nat → List Char → List JValue → Option (JValue × List Char)
  | 0, _, _ => none
  | fuel + 1, input, acc =>
    match parseVal fuel input with
    | none => none
    | some (v, r1) =>
      match skipWs r1 with
      | ',' :: r2 => parseElems fuel r2 (acc ++ [v])
      | ']' :: r2 => some (.arr (acc ++ [v]), r2)
      | _ => none

end

/-- Model of `json.loads`: parse a complete JSON document, requiring only trailing
whitespace after the value; `none` models `json.JSONDecodeError`. -/
def json_loads (s : String) : Option JValue :=
  match parseVal (s.length + 1) s.data with
  | some (v, rest) => if (skipWs rest).isEmpty then some v else none
  | none => none

example : json_loads "not json" = none := rfl
example : json_loads " \x7b\"status_code\": 200, \"status_message\": \"OK\"\x7d " =
    some (.obj [("status_code", .int 200), ("status_message", .str "OK")]) := rfl
example : json_loads "[1, -2, \"x\"]" = some (.arr [.int 1, .int (-2), .str "x"]) := rfl

/-- The exceptions an operation of the client can raise.
`pushwooshFailure` is the module's own `PushwooshFailure(status, response)`;
`jsonDecodeError` is `json.loads` failing on an invalid body;
`keyError` is a missing dict key (`decoded_json["status_code"]` etc.);
`typeError` is subscripting a non-dict decoded value;
`attributeError` is reading `.payload` off an object that has none. -/
inductive PwError where
  | jsonDecodeError
  | keyError (key : String)
  | typeError
  | attributeError
  | pushwooshFailure (status_code : JValue) (status_message : JValue)

/-- The spec's error taxonomy (§7): transport errors never reach this layer
of the model, so the kinds a decoded-response failure can have are
`parseError` (body not valid JSON, or required fields missing) and
`serviceFailure` (well-formed response with an unexpected status code);
`otherError` covers caller-side misuse (`attributeError`). -/
inductive ErrorKind where
  | parseError
  | serviceFailure
  | otherError
deriving DecidableEq

/-- Classify an exception under the spec's taxonomy. -/
def PwError.kind : PwError → ErrorKind
  | .jsonDecodeError => .parseError
  | .keyError _ => .parseError
  | .typeError => .parseError
  | .attributeError => .otherError
  | .pushwooshFailure _ _ => .serviceFailure

/-- Subscripting `decoded_json[key]` on a decoded JSON value: `KeyError` when the key is
absent, `TypeError` when the value is not a dict. -/
def dictGet (decoded : JValue) (key : String) : Except PwError JValue :=
  match decoded with
  | .obj entries =>
    match entries.lookup key with
    | some v => .ok v
    | none => .error (.keyError key)
  | _ => .error .typeError

/-- The response-handling tail shared verbatim by all three operations:
`decoded_json = json.loads(raw_response)`, extract `status_code` and
`status_message`, raise `PushwooshFailure(status, response)` unless the
status equals the operation's expected success code, else return
`(status, response)`. -/
def decodeAndCheck (expected : Int) (raw_response : String) :
    Except PwError (JValue × JValue) :=
  match json_loads raw_response with
  | none => .error .jsonDecodeError
  | some decoded_json =>
    match dictGet decoded_json "status_code" with
    | .error e => .error e
    | .ok status =>
      match dictGet decoded_json "status_message" with
      | .error e => .error e
      | .ok response =>
        if status.eqInt expected then .ok (status, response)
        else .error (.pushwooshFailure status response)

/-- A `Pushwoosh.Notification` object: after `__init__` it is just its
`payload` dict. -/
structure Notification where
  payload : List (String × JValue)

/-- Conditionally-present dict entry: `if arg is not None: payload[key] = arg`. -/
def condEntry (key : String) (arg : Option JValue) : List (String × JValue) :=
  match arg with
  | some v => [(key, v)]
  | none => []

/-- Model of `Notification.__init__(content, devices=None, data=None, page_id=None,
send_date=None, wp_type=None, wp_count=None, ios_badges=None,
ios_sound=None, android_sound=None)`: the payload starts as
`{"send_date": "now" if send_date is None else send_date, "content": content}`
and each remaining parameter is added under its own key exactly when it is
not `None`. `none` models Python `None`. -/
def Notification.make (content : JValue)
    (devices : Option JValue) (data : Option JValue) (page_id : Option JValue)
    (send_date : Option JValue) (wp_type : Option JValue) (wp_count : Option JValue)
    (ios_badges : Option JValue) (ios_sound : Option JValue)
    (android_sound : Option JValue) : Notification :=
  ⟨[("send_date", match send_date with | none => .str "now" | some d => d),
    ("content", content)]
   ++ condEntry "devices" devices
   ++ condEntry "data" data
   ++ condEntry "page_id" page_id
   ++ condEntry "wp_type" wp_type
   ++ condEntry "wp_count" wp_count
   ++ condEntry "ios_badges" ios_badges
   ++ condEntry "ios_sound" ios_sound
   ++ condEntry "android_sound" android_sound⟩

/-- A Python value that can be passed as the `notifications` argument of
`push`:
a `Notification` object, a list, or some other object (a tuple, say). -/
inductive PyObj where
  | notif (n : Notification)
  | pyList (items : List PyObj)
  | pyTuple (items : List PyObj)

/-- Test `isinstance(x, list)`. -/
def PyObj.isPyList : PyObj → Bool
  | .pyList _ => true
  | _ => false

/-- The normalization `if not isinstance(notifications, list): notifications = [notifications,]`. -/
def normalizePushArg (notifications : PyObj) : List PyObj :=
  match notifications with
  | .pyList items => items
  | other => [other]

/-- Reading `notification.payload`: an `AttributeError` on anything that is
not a `Notification` object. -/
def PyObj.getPayload : PyObj → Except PwError JValue
  | .notif n => .ok (.obj n.payload)
  | _ => .error .attributeError

/-- The loop `for notification in notifications:
payload["request"]["notifications"].append(notification.payload)`. -/
def collectPayloads : List PyObj → Except PwError (List JValue)
  | [] => .ok []
  | x :: rest =>
    match x.getPayload with
    | .error e => .error e
    | .ok p =>
      match collectPayloads rest with
      | .error e => .error e
      | .ok ps => .ok (p :: ps)

/-- The `Pushwoosh` client object: the three credentials captured by
`__init__`. -/
structure Pushwoosh where
  username : String
  password : String
  application_id : String

/-- The request envelope `push` builds and passes to `json.dumps`:
`{"request": {"application": ..., "username": ..., "password": ...,
"notifications": [...]}}` after the normalization and the append loop. -/
def Pushwoosh.buildPushEnvelope (self : Pushwoosh) (notifications : PyObj) :
    Except PwError JValue :=
  match collectPayloads (normalizePushArg notifications) with
  | .error e => .error e
  | .ok payloads =>
    .ok (.obj [("request", .obj
      [("application", .str self.application_id),
       ("username", .str self.username),
       ("password", .str self.password),
       ("notifications", .arr payloads)])])

/-- Model of `Pushwoosh.push(notifications)`: build the envelope, POST it, decode
the response and require status code 200.  `resp` is the
`(resp.status, resp.read())` pair the transport returns; the first
component is discarded (`_, raw_response = self._request(...)`). -/
def Pushwoosh.push (self : Pushwoosh) (notifications : PyObj)
    (resp : Int × String) : Except PwError (JValue × JValue) :=
  match self.buildPushEnvelope notifications with
  | .error e => .error e
  | .ok _body =>
    let raw_response := resp.2
    decodeAndCheck 200 raw_response

/-- The request envelope `register` builds:
`{"request": {"application": ..., "device_id": ..., "hw_id": ...,
"language": ..., "device_type": ...}}` plus `timezone` exactly when the
`timezone` argument is not `None`. -/
def Pushwoosh.registerEnvelope (self : Pushwoosh)
    (device_type device_id hw_id language : JValue)
    (timezone : Option JValue) : JValue :=
  .obj [("request", .obj (
    [("application", .str self.application_id),
     ("device_id", device_id),
     ("hw_id", hw_id),
     ("language", language),
     ("device_type", device_type)]
    ++ condEntry "timezone" timezone))]

/-- Model of `Pushwoosh.register(device_type, device_id, hw_id, language="en",
timezone=None)`: build the envelope, POST it, decode the response and
require status code 103. -/
def Pushwoosh.register (self : Pushwoosh)
    (device_type device_id hw_id language : JValue) (timezone : Option JValue)
    (resp : Int × String) : Except PwError (JValue × JValue) :=
  let _body := self.registerEnvelope device_type device_id hw_id language timezone
  let raw_response := resp.2
  decodeAndCheck 103 raw_response

/-- The request envelope `unregister` builds:
`{"request": {"application": ..., "device_id": ..., "device_type": ...}}`. -/
def Pushwoosh.unregisterEnvelope (self : Pushwoosh)
    (device_type device_id : JValue) : JValue :=
  .obj [("request", .obj
    [("application", .str self.application_id),
     ("device_id", device_id),
     ("device_type", device_type)])]

/-- Model of `Pushwoosh.unregister(device_type, device_id)`: build the envelope,
POST it, decode the response and require status code 200. -/
def Pushwoosh.unregister (self : Pushwoosh)
    (device_type device_id : JValue)
    (resp : Int × String) : Except PwError (JValue × JValue) :=
  let _body := self.unregisterEnvelope device_type device_id
  let raw_response := resp.2
  decodeAndCheck 200 raw_response

/-- Version of `push` with the `notifications` argument threaded as explicit state: the
source assigns no attribute of any notification object during `push` (the
only mutations are of the freshly built envelope and a local rebinding), so
the translation returns the notification state unchanged alongside the
result. -/
def Pushwoosh.pushThreaded (self : Pushwoosh) (notifications : PyObj)
    (resp : Int × String) : PyObj × Except PwError (JValue × JValue) :=
  (notifications, self.push notifications resp)

/-- Look a key up in the `request` object of an envelope. -/
def requestField (envelope : JValue) (key : String) : Option JValue :=
  match envelope with
  | .obj entries =>
    match entries.lookup "request" with
    | some (.obj req) => req.lookup key
    | _ => none
  | _ => none

/-- The keys of the `request` object of an envelope, in order. -/
def requestObjKeys (envelope : JValue) : Option (List String) :=
  match envelope with
  | .obj entries =>
    match entries.lookup "request" with
    | some (.obj req) => some (req.map Prod.fst)
    | _ => none
  | _ => none

/-- On a decoded two-field body `{"status_code": s, "status_message": msg}`,
the shared response tail returns `(s, msg)` when `s` is the expected code
and raises `PushwooshFailure(s, msg)` otherwise. -/
lemma decodeAndCheck_of_loads (expected s : Int) (raw : String) (msg : JValue)
    (h : json_loads raw =
      some (.obj [("status_code", .int s), ("status_message", msg)])) :
    decodeAndCheck expected raw =
      if s = expected then .ok (.int s, msg)
      else .error (.pushwooshFailure (.int s) msg) := by
  unfold decodeAndCheck
  rw [h]
  simp only [dictGet, List.lookup, beq_self_eq_true, JValue.eqInt]
  by_cases hc : s = expected
  · simp [hc]
  · simp [hc]

/-- The append loop over a list of genuine `Notification` objects collects
exactly their payload dicts, in order. -/
lemma collectPayloads_map_notif (ns : List Notification) :
    collectPayloads (ns.map PyObj.notif) =
      .ok (ns.map fun n => JValue.obj n.payload) := by
  induction ns with
  | nil => rfl
  | cons n rest ih => simp [collectPayloads, PyObj.getPayload, ih]

/-- C1: `register` treats 103 as the sole success code: on a decoded body
with `status_code` `s` and `status_message` `msg` it returns `(s, msg)`
when `s = 103` and raises `PushwooshFailure(s, msg)` for every other `s`;
in particular a body with status code 200 and message "Unexpected" raises
`PushwooshFailure(200, "Unexpected")`. -/
theorem register_success_iff_103 (self : Pushwoosh)
    (device_type device_id hw_id language : JValue) (timezone : Option JValue)
    (hs : Int) (raw : String) (s : Int) (msg : JValue)
    (h : json_loads raw =
      some (.obj [("status_code", .int s), ("status_message", msg)])) :
    (s = 103 →
      self.register device_type device_id hw_id language timezone (hs, raw)
        = .ok (.int s, msg)) ∧
    (s ≠ 103 →
      self.register device_type device_id hw_id language timezone (hs, raw)
        = .error (.pushwooshFailure (.int s) msg)) ∧
    self.register device_type device_id hw_id language timezone
        (hs, "\x7b\"status_code\": 200, \"status_message\": \"Unexpected\"\x7d")
      = .error (.pushwooshFailure (.int 200) (.str "Unexpected")) := by
  unfold Pushwoosh.register
  rw [decodeAndCheck_of_loads 103 s raw msg h]
  refine ⟨fun hc => ?_, fun hc => ?_, rfl⟩
  · simp [hc]
  · simp [hc]

/-- C1 witness: a concrete success run at status code 103 and a concrete
failure run at status code 200. -/
theorem register_success_iff_103_witness :
    (Pushwoosh.mk "u" "p" "APP").register (.int 1) (.str "tok") (.str "hw")
        (.str "en") none
        (200, "\x7b\"status_code\": 103, \"status_message\": \"OK\"\x7d")
      = .ok (.int 103, .str "OK") :=
  (register_success_iff_103 (Pushwoosh.mk "u" "p" "APP") (.int 1) (.str "tok")
    (.str "hw") (.str "en") none 200
    "\x7b\"status_code\": 103, \"status_message\": \"OK\"\x7d" 103
    (.str "OK") rfl).1 rfl

/-- C2 counterexample: for the client ("alice", "secret", "APP-1"),
`unregister(3, "abc123")` builds a request object whose keys are exactly
application, device_id, device_type — there is no username key and no
password key, refuting the claim's "plus the client's username and
password". -/
theorem unregister_envelope_no_credentials :
    requestObjKeys ((Pushwoosh.mk "alice" "secret" "APP-1").unregisterEnvelope
        (.int 3) (.str "abc123"))
      = some ["application", "device_id", "device_type"] ∧
    requestField ((Pushwoosh.mk "alice" "secret" "APP-1").unregisterEnvelope
        (.int 3) (.str "abc123")) "username" = none ∧
    requestField ((Pushwoosh.mk "alice" "secret" "APP-1").unregisterEnvelope
        (.int 3) (.str "abc123")) "password" = none :=
  ⟨rfl, rfl, rfl⟩

/-- C2 amended: for every client and every device_type and device_id, the
`request` object of the body `unregister` builds contains exactly the keys
application (the client's application_id), device_id and device_type; the
client's username and password are not included. -/
theorem unregister_envelope_exact_fields (self : Pushwoosh)
    (device_type device_id : JValue) :
    self.unregisterEnvelope device_type device_id = .obj [("request", .obj
      [("application", .str self.application_id),
       ("device_id", device_id),
       ("device_type", device_type)])] := rfl

/-- C3: `push` on a single notification returns `(s, msg)` when the decoded
body's `status_code` `s` is 200 and raises `PushwooshFailure(s, msg)` for
every other `s`; in particular status code 400 with message "Bad request"
raises `PushwooshFailure(400, "Bad request")`. -/
theorem push_success_iff_200 (self : Pushwoosh) (n : Notification)
    (hs : Int) (raw : String) (s : Int) (msg : JValue)
    (h : json_loads raw =
      some (.obj [("status_code", .int s), ("status_message", msg)])) :
    (s = 200 → self.push (.notif n) (hs, raw) = .ok (.int s, msg)) ∧
    (s ≠ 200 → self.push (.notif n) (hs, raw)
        = .error (.pushwooshFailure (.int s) msg)) ∧
    self.push (.notif n)
        (hs, "\x7b\"status_code\": 400, \"status_message\": \"Bad request\"\x7d")
      = .error (.pushwooshFailure (.int 400) (.str "Bad request")) := by
  unfold Pushwoosh.push
  simp only [Pushwoosh.buildPushEnvelope, normalizePushArg, collectPayloads,
    PyObj.getPayload]
  rw [decodeAndCheck_of_loads 200 s raw msg h]
  refine ⟨fun hc => ?_, fun hc => ?_, rfl⟩
  · simp [hc]
  · simp [hc]

/-- C3 witness: a concrete success run at status code 200 and the concrete
failure run at status code 400. -/
theorem push_success_iff_200_witness :
    (Pushwoosh.mk "u" "p" "APP").push
        (.notif (Notification.make (.str "hello") none none none none none
          none none none none))
        (200, "\x7b\"status_code\": 200, \"status_message\": \"OK\"\x7d")
      = .ok (.int 200, .str "OK") :=
  (push_success_iff_200 (Pushwoosh.mk "u" "p" "APP")
    (Notification.make (.str "hello") none none none none none none none
      none none) 200
    "\x7b\"status_code\": 200, \"status_message\": \"OK\"\x7d" 200
    (.str "OK") rfl).1 rfl

/-- C4: a Notification built with only `content` supplied has payload
exactly the two-entry dict `{"send_date": "now", "content": content}`. -/
theorem notification_content_only_payload (content : JValue) :
    (Notification.make content none none none none none none none none
      none).payload = [("send_date", .str "now"), ("content", content)] := rfl

/-- C5: for a list of N notifications, the envelope `push` builds has a
`notifications` field that is the ordered list of exactly the N payload
dicts, the i-th being the payload of the i-th input notification. -/
theorem push_envelope_preserves_order (self : Pushwoosh)
    (ns : List Notification) :
    self.buildPushEnvelope (.pyList (ns.map PyObj.notif)) = .ok (.obj
      [("request", .obj
        [("application", .str self.application_id),
         ("username", .str self.username),
         ("password", .str self.password),
         ("notifications", .arr (ns.map fun n => JValue.obj n.payload))])]) ∧
    (ns.map fun n => JValue.obj n.payload).length = ns.length ∧
    ∀ i (hi : i < ns.length),
      (ns.map fun n => JValue.obj n.payload).get ⟨i, by simpa using hi⟩
        = .obj (ns.get ⟨i, hi⟩).payload := by
  refine ⟨?_, by simp, fun i hi => by simp⟩
  unfold Pushwoosh.buildPushEnvelope
  rw [show normalizePushArg (.pyList (ns.map PyObj.notif))
        = ns.map PyObj.notif from rfl,
    collectPayloads_map_notif]

/-- C5 witness: a concrete two-notification run, with the first envelope
slot holding the first notification's payload. -/
theorem push_envelope_preserves_order_witness :
    (Pushwoosh.mk "u" "p" "APP").buildPushEnvelope (.pyList
        (([Notification.make (.str "a") none none none none none none none
            none none,
           Notification.make (.str "b") none none none none none none none
            none none]).map PyObj.notif)) = .ok (.obj
      [("request", .obj
        [("application", .str "APP"),
         ("username", .str "u"),
         ("password", .str "p"),
         ("notifications", .arr
           (([Notification.make (.str "a") none none none none none none
               none none none,
              Notification.make (.str "b") none none none none none none
               none none none]).map fun n => JValue.obj n.payload))])]) ∧
    (([Notification.make (.str "a") none none none none none none none none
        none,
       Notification.make (.str "b") none none none none none none none none
        none]).map fun n => JValue.obj n.payload).get ⟨0, by simp⟩
      = .obj (Notification.make (.str "a") none none none none none none
          none none none).payload :=
  ⟨(push_envelope_preserves_order (Pushwoosh.mk "u" "p" "APP")
      [Notification.make (.str "a") none none none none none none none none
        none,
       Notification.make (.str "b") none none none none none none none none
        none]).1,
   (push_envelope_preserves_order (Pushwoosh.mk "u" "p" "APP")
      [Notification.make (.str "a") none none none none none none none none
        none,
       Notification.make (.str "b") none none none none none none none none
        none]).2.2 0 (by decide)⟩

/-- C6: a response body that is not valid JSON makes the response tail fail
with the JSON decode error, and a valid-JSON body lacking `status_code` or
`status_message` fails with the corresponding `KeyError`; both kinds
classify as ParseError under the spec's taxonomy, never as the
service-failure kind. -/
theorem decode_failures_are_parse_errors :
    (∀ raw, json_loads raw = none → ∀ expected : Int,
      decodeAndCheck expected raw = .error .jsonDecodeError) ∧
    json_loads "not json" = none ∧
    (∀ (self : Pushwoosh) (n : Notification) (hs : Int),
      self.push (.notif n) (hs, "not json") = .error .jsonDecodeError) ∧
    PwError.kind .jsonDecodeError = .parseError ∧
    (∀ (self : Pushwoosh) (n : Notification) (hs : Int),
      self.push (.notif n) (hs, "\x7b\"status_code\": 200\x7d")
        = .error (.keyError "status_message")) ∧
    (∀ (self : Pushwoosh) (n : Notification) (hs : Int),
      self.push (.notif n) (hs, "\x7b\"status_message\": \"OK\"\x7d")
        = .error (.keyError "status_code")) ∧
    PwError.kind (.keyError "status_message") = .parseError ∧
    PwError.kind (.keyError "status_code") = .parseError ∧
    (∀ s msg, PwError.kind (.pushwooshFailure s msg) ≠ .parseError) := by
  refine ⟨fun raw h expected => ?_, rfl, fun _ _ _ => rfl, rfl,
    fun _ _ _ => rfl, fun _ _ _ => rfl, rfl, rfl,
    fun s msg => by simp [PwError.kind]⟩
  unfold decodeAndCheck
  rw [h]

/-- C6 witness: the body `not json` concretely fails with the JSON decode
error. -/
theorem decode_failures_are_parse_errors_witness :
    decodeAndCheck 200 "not json" = .error .jsonDecodeError :=
  decode_failures_are_parse_errors.1 "not json" rfl 200

/-- C7: the notification objects are state `push` never writes: the
state-threaded translation returns them unchanged whatever the response,
a second envelope built from the post-call objects is identical to the
envelope of the first call, and the threaded call computes exactly the
plain call's result. -/
theorem push_leaves_notifications_unchanged (self : Pushwoosh)
    (notifications : PyObj) (resp : Int × String) :
    (self.pushThreaded notifications resp).1 = notifications ∧
    self.buildPushEnvelope (self.pushThreaded notifications resp).1
      = self.buildPushEnvelope notifications ∧
    (self.pushThreaded notifications resp).2 = self.push notifications resp :=
  ⟨rfl, rfl, rfl⟩

/-- C8: all three operations ignore the transport status component of the
`(resp.status, resp.read())` pair entirely — the result depends only on the
body — and concretely an HTTP 500 response whose body carries status_code
200 makes `push` return success. -/
theorem http_transport_status_discarded :
    (∀ (self : Pushwoosh) (notifications : PyObj) (s1 s2 : Int)
        (raw : String),
      self.push notifications (s1, raw) = self.push notifications (s2, raw)) ∧
    (∀ (self : Pushwoosh) (dt di hw lang : JValue) (tz : Option JValue)
        (s1 s2 : Int) (raw : String),
      self.register dt di hw lang tz (s1, raw)
        = self.register dt di hw lang tz (s2, raw)) ∧
    (∀ (self : Pushwoosh) (dt di : JValue) (s1 s2 : Int) (raw : String),
      self.unregister dt di (s1, raw) = self.unregister dt di (s2, raw)) ∧
    (Pushwoosh.mk "u" "p" "APP").push
        (.notif (Notification.make (.str "hello") none none none none none
          none none none none))
        (500, "\x7b\"status_code\": 200, \"status_message\": \"OK\"\x7d")
      = .ok (.int 200, .str "OK") :=
  ⟨fun _ _ _ _ _ => rfl, fun _ _ _ _ _ _ _ _ _ => rfl,
   fun _ _ _ _ _ _ => rfl, rfl⟩

/-- C9: the unset sentinel of every optional Notification parameter is
exactly `None`: any non-`None` argument — falsy values like `[]`, `0` and
`{}` included — lands in the payload under its key with that exact value,
and with all parameters `None` none of the eight keys is present. -/
theorem notification_sentinel_is_none (content v : JValue) :
    (Notification.make content (some v) none none none none none none none
        none).payload
      = [("send_date", .str "now"), ("content", content), ("devices", v)] ∧
    (Notification.make content none (some v) none none none none none none
        none).payload
      = [("send_date", .str "now"), ("content", content), ("data", v)] ∧
    (Notification.make content none none (some v) none none none none none
        none).payload
      = [("send_date", .str "now"), ("content", content), ("page_id", v)] ∧
    (Notification.make content none none none none (some v) none none none
        none).payload
      = [("send_date", .str "now"), ("content", content), ("wp_type", v)] ∧
    (Notification.make content none none none none none (some v) none none
        none).payload
      = [("send_date", .str "now"), ("content", content), ("wp_count", v)] ∧
    (Notification.make content none none none none none none (some v) none
        none).payload
      = [("send_date", .str "now"), ("content", content), ("ios_badges", v)] ∧
    (Notification.make content none none none none none none none (some v)
        none).payload
      = [("send_date", .str "now"), ("content", content), ("ios_sound", v)] ∧
    (Notification.make content none none none none none none none none
        (some v)).payload
      = [("send_date", .str "now"), ("content", content),
         ("android_sound", v)] ∧
    ((Notification.make content none none none none none none none none
        none).payload.lookup "devices" = none ∧
     (Notification.make content none none none none none none none none
        none).payload.lookup "data" = none ∧
     (Notification.make content none none none none none none none none
        none).payload.lookup "page_id" = none ∧
     (Notification.make content none none none none none none none none
        none).payload.lookup "wp_type" = none ∧
     (Notification.make content none none none none none none none none
        none).payload.lookup "wp_count" = none ∧
     (Notification.make content none none none none none none none none
        none).payload.lookup "ios_badges" = none ∧
     (Notification.make content none none none none none none none none
        none).payload.lookup "ios_sound" = none ∧
     (Notification.make content none none none none none none none none
        none).payload.lookup "android_sound" = none) ∧
    (Notification.make content (some (.arr [])) none none none none none
        none none none).payload.lookup "devices" = some (.arr []) ∧
    (Notification.make content none (some (.obj [])) none none none none
        none none none).payload.lookup "data" = some (.obj []) ∧
    (Notification.make content none none none none none (some (.int 0))
        none none none).payload.lookup "wp_count" = some (.int 0) :=
  ⟨rfl, rfl, rfl, rfl, rfl, rfl, rfl, rfl,
   ⟨rfl, rfl, rfl, rfl, rfl, rfl, rfl, rfl⟩, rfl, rfl, rfl⟩

/-- C10: `push` normalizes its argument by list type only: a non-list value
— a single notification but equally a tuple — is wrapped as one element
into a singleton list, a list passes through unchanged, and the envelope is
built from the wrapped singleton. -/
theorem push_normalizes_by_list_type_only (v : PyObj) (xs : List PyObj)
    (h : v.isPyList = false) :
    normalizePushArg v = [v] ∧
    normalizePushArg (.pyList xs) = xs ∧
    ∀ self : Pushwoosh,
      self.buildPushEnvelope v = self.buildPushEnvelope (.pyList [v]) := by
  cases v with
  | notif n => exact ⟨rfl, rfl, fun _ => rfl⟩
  | pyList items => simp [PyObj.isPyList] at h
  | pyTuple items => exact ⟨rfl, rfl, fun _ => rfl⟩

/-- C10 witness: a tuple of notifications is itself wrapped as a single
element. -/
theorem push_normalizes_by_list_type_only_witness :
    normalizePushArg (.pyTuple [.notif (Notification.make (.str "a") none
        none none none none none none none none)])
      = [.pyTuple [.notif (Notification.make (.str "a") none none none none
        none none none none none)]] :=
  (push_normalizes_by_list_type_only
    (.pyTuple [.notif (Notification.make (.str "a") none none none none
      none none none none none)]) [] rfl).1
